import Mathlib

/-!
Shallow embedding of the keyspace scanning and pagination engine of
`dj_redis_panel/redis_utils.py` (class `RedisPanelUtils`).

Conventions of the embedding:

* A Redis connection is modelled as a record of pure command functions
  (`RedisConn`).  Every command may fail; failure is modelled with
  `Except String`, mirroring Python exceptions whose message is `str(e)`.
  The combined effect of `get_redis_connection(...)` followed by
  `select(db)` is modelled by a parameter `connect : Except String RedisConn`:
  an exception in either shows up as `Except.error`.
* Python `try/except` blocks are modelled by running the body in
  `Except String` and matching on the outcome.
* Python integers that are non-negative throughout the relevant code paths
  (pages, per-page sizes, cursors, sizes, counts) are modelled as `Nat`.
  TTL values can be negative (`-1`, `-2`) and are modelled as `Int`.
  Redis index arguments that the code can make negative (`lrange(key, 0, -1)`)
  are modelled as `Int`.
* zset scores are floats in Python; they are only ever passed through
  unmodified by the code modelled here, so they are represented by an
  opaque stand-in type (`Int`).
* `list.sort()` on strings sorts lexicographically by code point; it is
  modelled by `List.insertionSort` with an explicit code-point comparison
  (any correct sort is extensionally the same on a totally ordered type).
-/

/-- The union of Python value shapes returned as a key's `value`:
a string, a list of strings (list elements or set members), a list of
(member, score) pairs (zset with scores), or a field→value mapping (hash). -/
inductive RValue where
  | str : String → RValue
  | list : List String → RValue
  | zset : List (String × Int) → RValue
  | hash : List (String × String) → RValue
  deriving Repr, DecidableEq

/-- Python truthiness of a value (`if key_value`): empty string / list / dict
are falsy. -/
def RValue.isTruthy : RValue → Bool
  | .str s => s ≠ ""
  | .list l => l ≠ []
  | .zset l => l ≠ []
  | .hash l => l ≠ []

/-- `len(key_value)` for the value shapes (string length in characters,
element count otherwise). -/
def RValue.len : RValue → Nat
  | .str s => s.length
  | .list l => l.length
  | .zset l => l.length
  | .hash l => l.length

/-- A connected Redis client handle (after `select(db)`): each Redis command
used by the scanning/pagination engine, as a pure function that may raise. -/
structure RedisConn where
  /-- `SCAN cursor MATCH pattern COUNT count` → `(next_cursor, keys)`. -/
  scan : Nat → String → Nat → Except String (Nat × List String)
  /-- `TYPE key` → `"string" | "list" | "set" | "zset" | "hash" | ...`. -/
  typeOf : String → Except String String
  /-- `TTL key` (may be `-1` / `-2`). -/
  ttl : String → Except String Int
  /-- `GET key` (`none` models Python `None` for a missing key). -/
  getCmd : String → Except String (Option String)
  /-- `EXISTS key`. -/
  existsKey : String → Except String Bool
  /-- `LLEN key`. -/
  llen : String → Except String Nat
  /-- `SCARD key`. -/
  scard : String → Except String Nat
  /-- `ZCARD key`. -/
  zcard : String → Except String Nat
  /-- `HLEN key`. -/
  hlen : String → Except String Nat
  /-- `LRANGE key start stop` (inclusive stop, negative indices count
  from the end, Redis semantics). -/
  lrange : String → Int → Int → Except String (List String)
  /-- `SMEMBERS key` (as `list(...)`, arbitrary order). -/
  smembers : String → Except String (List String)
  /-- `ZRANGE key start stop WITHSCORES`. -/
  zrangeWithScores : String → Int → Int → Except String (List (String × Int))
  /-- `HGETALL key` (as a field→value mapping, arbitrary order). -/
  hgetall : String → Except String (List (String × String))
  /-- `SSCAN key cursor COUNT count` → `(next_cursor, members)`. -/
  sscan : String → Nat → Nat → Except String (Nat × List String)
  /-- `HSCAN key cursor COUNT count` → `(next_cursor, fields)`. -/
  hscan : String → Nat → Nat → Except String (Nat × List (String × String))

/-- Strict lexicographic code-point order on character lists (how Python
compares strings). -/
def charListLt : List Char → List Char → Bool
  | _, [] => false
  | [], _ :: _ => true
  | a :: as, b :: bs =>
    if a.val < b.val then true
    else if b.val < a.val then false
    else charListLt as bs

/-- Python `a < b` on strings. -/
def strLt (a b : String) : Bool := charListLt a.data b.data

/-- Python `a <= b` on strings (total order, so `a ≤ b ↔ ¬ b < a`). -/
def strLe (a b : String) : Bool := !(strLt b a)

/-- `all_keys.sort()` on Python strings: lexicographic sort. -/
def sortKeys (l : List String) : List String :=
  l.insertionSort (fun a b => strLe a b = true)

/-- One row of `keys_with_details`. -/
structure ScanKeyDetail where
  key : String
  type : String
  ttl : Option Int
  size : Nat
  deriving Repr, DecidableEq

/-- The body of the per-key detail loop shared by `paginated_scan` and
`cursor_paginated_scan` (redis_utils.py lines 230-255 / 335-363): resolve
type, ttl and a type-dependent size for one key; any command failure is an
exception (caught by the caller, which skips the key). -/
def keyDetail (conn : RedisConn) (key : String) : Except String ScanKeyDetail :=
  match conn.typeOf key with
  | .error e => .error e
  | .ok key_type =>
    match conn.ttl key with
    | .error e => .error e
    | .ok ttl =>
      let size : Except String Nat :=
        if key_type = "string" then
          match conn.getCmd key with
          | .error e => .error e
          | .ok v => .ok ((v.getD "").utf8ByteSize)
        else if key_type = "list" then conn.llen key
        else if key_type = "set" then conn.scard key
        else if key_type = "zset" then conn.zcard key
        else if key_type = "hash" then conn.hlen key
        else .ok 0
      match size with
      | .error e => .error e
      | .ok size =>
        .ok { key := key, type := key_type,
              ttl := if ttl > 0 then some ttl else none, size := size }

/-- The detail loop: `keys that error during detail lookup are skipped`
(`except Exception: continue`). -/
def keysWithDetails (conn : RedisConn) (keys : List String) : List ScanKeyDetail :=
  keys.filterMap (fun k => (keyDetail conn k).toOption)

/-- The SCAN accumulation loop of `paginated_scan` (lines 198-215):
`fuel` is the number of remaining iterations allowed by the
`while scan_iterations < max_scan_iterations` guard (hardcoded 2000);
the loop breaks when the returned cursor is `0` (scan complete) or when
at least `100000` keys have been accumulated (safety limit).
Returns the final cursor together with the accumulated keys. -/
def scanLoop (conn : RedisConn) (pattern : String) (scanCount : Nat) :
    Nat → Nat → List String → Except String (Nat × List String)
  | 0, cursor, acc => .ok (cursor, acc)
  | fuel + 1, cursor, acc =>
    match conn.scan cursor pattern scanCount with
    | .error e => .error e
    | .ok (cursor2, batchKeys) =>
      let acc := acc ++ batchKeys
      if cursor2 = 0 then .ok (0, acc)
      else if 100000 ≤ acc.length then .ok (cursor2, acc)
      else scanLoop conn pattern scanCount fuel cursor2 acc

/-- Result dictionary of `paginated_scan` (same fields in the success and
error returns, lines 260-271 and 275-286). -/
structure PaginatedScanResult where
  keys : List String
  keys_with_details : List ScanKeyDetail
  total_keys : Nat
  page : Nat
  per_page : Nat
  total_pages : Nat
  has_more : Bool
  scan_complete : Bool
  limited_scan : Bool
  error : Option String
  deriving Repr, DecidableEq

/-- The `except Exception` return of `paginated_scan` (lines 275-286). -/
def scanErrorResult (page per_page : Nat) (e : String) : PaginatedScanResult :=
  { keys := [], keys_with_details := [], total_keys := 0, page := page,
    per_page := per_page, total_pages := 0, has_more := false,
    scan_complete := false, limited_scan := false, error := some e }

/-- The success return of `paginated_scan` (lines 217-271), given the final
cursor and the accumulated keys of the scan loop and the already computed
`total_pages`. -/
def buildScanSuccess (conn : RedisConn) (page per_page : Nat) (cursor : Nat)
    (all_keys : List String) (total_pages : Nat) : PaginatedScanResult :=
  let start_index := (page - 1) * per_page
  let end_index := start_index + per_page
  let page_keys := (all_keys.drop start_index).take (end_index - start_index)
  { keys := page_keys,
    keys_with_details := keysWithDetails conn page_keys,
    total_keys := all_keys.length,
    page := page, per_page := per_page, total_pages := total_pages,
    has_more := decide (page < total_pages),
    scan_complete := decide (cursor = 0),
    limited_scan := decide (100000 ≤ all_keys.length),
    error := none }

/-- `RedisPanelUtils.paginated_scan(instance_alias, db_number, pattern, page,
per_page, scan_count)` (lines 177-286).  `connect` models
`get_redis_connection(instance_alias)` followed by `select(db_number)`.
The explicit error on `per_page = 0` models Python's `ZeroDivisionError`
raised by `// per_page` (caught by the same `except`). -/
def paginated_scan (connect : Except String RedisConn) (pattern : String)
    (page per_page scan_count : Nat) : PaginatedScanResult :=
  match connect with
  | .error e => scanErrorResult page per_page e
  | .ok conn =>
    match scanLoop conn pattern scan_count 2000 0 [] with
    | .error e => scanErrorResult page per_page e
    | .ok (cursor, all_keys0) =>
      let all_keys := sortKeys all_keys0
      let total_keys := all_keys.length
      if 0 < total_keys then
        if per_page = 0 then
          scanErrorResult page per_page "integer division or modulo by zero"
        else
          buildScanSuccess conn page per_page cursor all_keys
            ((total_keys + per_page - 1) / per_page)
      else
        buildScanSuccess conn page per_page cursor all_keys 1

/-- Result dictionary of `cursor_paginated_scan` (same fields in the success
and error returns, lines 380-393 and 397-410). -/
structure CursorScanResult where
  keys : List String
  keys_with_details : List ScanKeyDetail
  total_keys : Nat
  page : Nat
  per_page : Nat
  total_pages : Nat
  has_more : Bool
  scan_complete : Bool
  limited_scan : Bool
  next_cursor : Nat
  current_cursor : Nat
  error : Option String
  deriving Repr, DecidableEq

/-- The `except Exception` return of `cursor_paginated_scan` (lines 397-410). -/
def cursorErrorResult (per_page cursor : Nat) (e : String) : CursorScanResult :=
  { keys := [], keys_with_details := [], total_keys := 0, page := 1,
    per_page := per_page, total_pages := 0, has_more := false,
    scan_complete := false, limited_scan := false, next_cursor := 0,
    current_cursor := cursor, error := some e }

/-- `RedisPanelUtils.cursor_paginated_scan(instance_alias, db_number, pattern,
per_page, scan_count, cursor)` (lines 288-410).  The `scan_count` parameter is
overwritten with `per_page` by the source (line 318), so it does not appear
here.  One single SCAN iteration is issued; falsy (empty-string) keys are
filtered out and the batch is sorted. -/
def cursor_paginated_scan (connect : Except String RedisConn) (pattern : String)
    (per_page cursor : Nat) : CursorScanResult :=
  match connect with
  | .error e => cursorErrorResult per_page cursor e
  | .ok conn =>
    match conn.scan cursor pattern per_page with
    | .error e => cursorErrorResult per_page cursor e
    | .ok (current_cursor, batchKeys) =>
      let page_keys := sortKeys (batchKeys.filter (fun k => k ≠ ""))
      let scan_complete := decide (current_cursor = 0)
      let has_more := !scan_complete && decide (0 < page_keys.length)
      let estimated_total :=
        if scan_complete && decide (cursor = 0) then page_keys.length
        else page_keys.length
      let estimated_total :=
        if has_more then max estimated_total per_page else estimated_total
      { keys := page_keys,
        keys_with_details := keysWithDetails conn page_keys,
        total_keys := estimated_total,
        page := 1, per_page := per_page, total_pages := 1,
        has_more := has_more, scan_complete := scan_complete,
        limited_scan := false,
        next_cursor := current_cursor, current_cursor := cursor,
        error := none }

/-- The list of dictionary keys present in every result of `paginated_scan`
(identical in the success literal, lines 260-271, and the error literal,
lines 275-286). -/
def paginatedScanDictKeys : List String :=
  ["keys", "keys_with_details", "total_keys", "page", "per_page",
   "total_pages", "has_more", "scan_complete", "limited_scan", "error"]

/-- The list of dictionary keys present in every result of
`cursor_paginated_scan` (identical in the success literal, lines 380-393,
and the error literal, lines 397-410). -/
def cursorScanDictKeys : List String :=
  ["keys", "keys_with_details", "total_keys", "page", "per_page",
   "total_pages", "has_more", "scan_complete", "limited_scan",
   "next_cursor", "current_cursor", "error"]

/-- The offset-mode pagination metadata shape named by the spec:
`{page, per_page, total_pages, total_keys, has_more}`. -/
def offsetModeShapeFields : List String :=
  ["page", "per_page", "total_pages", "total_keys", "has_more"]

/-- The cursor-mode pagination metadata shape named by the spec:
`{current_cursor, next_cursor, has_more}`. -/
def cursorModeShapeFields : List String :=
  ["current_cursor", "next_cursor", "has_more"]

/-- Result dictionary of `get_key_data` (lines 412-475): the assembled
`KeyRecord`. `keyExists` models the Python dict key `exists`. -/
structure KeyDataResult where
  name : String
  type : Option String
  ttl : Option Int
  size : Nat
  value : Option RValue
  keyExists : Bool
  error : Option String
  deriving Repr, DecidableEq

/-- The `except Exception` return of `get_key_data` (lines 465-475). -/
def keyDataError (key_name : String) (e : String) : KeyDataResult :=
  { name := key_name, type := none, ttl := none, size := 0, value := none,
    keyExists := false, error := some e }

/-- The type-dispatched full-value fetch of `get_key_data` (lines 439-453):
value and size per key type. -/
def fetchValueAndSize (conn : RedisConn) (key ty : String) :
    Except String (Option RValue × Nat) :=
  if ty = "string" then
    match conn.getCmd key with
    | .error e => .error e
    | .ok v => let s := v.getD ""; .ok (some (.str s), s.utf8ByteSize)
  else if ty = "list" then
    match conn.lrange key 0 (-1) with
    | .error e => .error e
    | .ok v =>
      match conn.llen key with
      | .error e => .error e
      | .ok n => .ok (some (.list v), n)
  else if ty = "set" then
    match conn.smembers key with
    | .error e => .error e
    | .ok v =>
      match conn.scard key with
      | .error e => .error e
      | .ok n => .ok (some (.list v), n)
  else if ty = "zset" then
    match conn.zrangeWithScores key 0 (-1) with
    | .error e => .error e
    | .ok v =>
      match conn.zcard key with
      | .error e => .error e
      | .ok n => .ok (some (.zset v), n)
  else if ty = "hash" then
    match conn.hgetall key with
    | .error e => .error e
    | .ok v =>
      match conn.hlen key with
      | .error e => .error e
      | .ok n => .ok (some (.hash v), n)
  else .ok (none, 0)

/-- `RedisPanelUtils.get_key_data(instance_alias, db_number, key_name)`
(lines 412-475). -/
def get_key_data (connect : Except String RedisConn) (key_name : String) :
    KeyDataResult :=
  match connect with
  | .error e => keyDataError key_name e
  | .ok conn =>
    match conn.existsKey key_name with
    | .error e => keyDataError key_name e
    | .ok ex =>
      if ex then
        match conn.typeOf key_name with
        | .error e => keyDataError key_name e
        | .ok ty =>
          match conn.ttl key_name with
          | .error e => keyDataError key_name e
          | .ok tt =>
            match fetchValueAndSize conn key_name ty with
            | .error e => keyDataError key_name e
            | .ok (v, sz) =>
              { name := key_name, type := some ty,
                ttl := if tt > 0 then some tt else none,
                size := sz, value := v, keyExists := true, error := none }
      else
        { name := key_name, type := none, ttl := none, size := 0,
          value := none, keyExists := false, error := none }

/-- Result dictionary of `get_paginated_key_data` (lines 477-766).  Fields
that are present only in one of the response shapes (cursor-mode extras,
page-mode extras, paginated-collection extras) are `Option`s; `none` models
the dict key being absent from that response. `keyExists` models the Python
dict key `exists`. -/
structure KeyPageResult where
  name : String
  type : Option String
  ttl : Option Int
  size : Nat
  value : Option RValue
  keyExists : Bool
  error : Option String
  is_paginated : Bool
  cursor : Option Nat
  next_cursor : Option Nat
  has_more : Bool
  showing_count : Option Nat
  page : Option Nat
  per_page : Option Nat
  total_pages : Option Nat
  start_index : Option Nat
  end_index : Option Nat
  range_start : Option Nat
  range_end : Option Nat
  pagination_type : Option String
  deriving Repr, DecidableEq

/-- The `base_response` of `get_paginated_key_data` for a non-existent key
(lines 510-537) when `err = none`, and the `base_error_response` of its
`except` handler (lines 740-766) when `err = some e`: identical fields apart
from `error`. -/
def keyPageBase (key_name : String) (use_cursor : Bool)
    (cursor page per_page : Nat) (err : Option String) : KeyPageResult :=
  { name := key_name, type := none, ttl := none, size := 0, value := none,
    keyExists := false, error := err, is_paginated := false,
    cursor := if use_cursor then some cursor else none,
    next_cursor := if use_cursor then some 0 else none,
    has_more := false,
    showing_count := if use_cursor then some 0 else none,
    page := if use_cursor then none else some page,
    per_page := if use_cursor then none else some per_page,
    total_pages := if use_cursor then none else some 0,
    start_index := none, end_index := none, range_start := none,
    range_end := none, pagination_type := none }

/-- The string response of `get_paginated_key_data` (lines 544-574): strings
are never paginated. -/
def keyPageString (key_name : String) (s : String) (tt : Int)
    (use_cursor : Bool) (cursor page per_page : Nat) : KeyPageResult :=
  { name := key_name, type := some "string",
    ttl := if tt > 0 then some tt else none,
    size := s.utf8ByteSize, value := some (.str s),
    keyExists := true, error := none, is_paginated := false,
    cursor := if use_cursor then some cursor else none,
    next_cursor := if use_cursor then some 0 else none,
    has_more := false,
    showing_count := if use_cursor then some s.length else none,
    page := if use_cursor then none else some page,
    per_page := if use_cursor then none else some per_page,
    total_pages := if use_cursor then none else some 0,
    start_index := none, end_index := none, range_start := none,
    range_end := none, pagination_type := none }

/-- The unpaginated small-collection response (lines 588-608): the result of
`get_key_data` plus `is_paginated = false` and the mode-specific extras. -/
def keyPageUnpaginated (d : KeyDataResult) (use_cursor : Bool)
    (cursor page per_page key_size : Nat) : KeyPageResult :=
  { name := d.name, type := d.type, ttl := d.ttl, size := d.size,
    value := d.value, keyExists := d.keyExists, error := d.error,
    is_paginated := false,
    cursor := if use_cursor then some cursor else none,
    next_cursor := if use_cursor then some 0 else none,
    has_more := false,
    showing_count := if use_cursor then some key_size else none,
    page := if use_cursor then none else some page,
    per_page := if use_cursor then none else some per_page,
    total_pages := if use_cursor then none
      else some (if 0 < key_size then 1 else 0),
    start_index := none, end_index := none, range_start := none,
    range_end := none, pagination_type := none }

/-- The cursor-mode paginated-collection response (lines 663-680).
`range_start`/`range_end`/`start_index` are populated only for the
order-preserving types (`key_type in ["list", "zset"]`). -/
def keyPageCursorMode (key_name key_type : String) (tt : Int) (key_size : Nat)
    (value : Option RValue) (cursor next_cursor : Nat) (has_more : Bool)
    (showing_count : Nat) : KeyPageResult :=
  let ordered := key_type = "list" || key_type = "zset"
  { name := key_name, type := some key_type,
    ttl := if tt > 0 then some tt else none,
    size := key_size, value := value, keyExists := true, error := none,
    is_paginated := true,
    cursor := some cursor, next_cursor := some next_cursor,
    has_more := has_more, showing_count := some showing_count,
    page := none, per_page := none, total_pages := none,
    start_index := if ordered then some cursor else none,
    end_index := none,
    range_start := if ordered then
      some (if 0 < showing_count then cursor + 1 else 0) else none,
    range_end := if ordered then some (cursor + showing_count) else none,
    pagination_type := some "cursor" }

/-- The page-mode paginated-collection response (lines 719-735). -/
def keyPagePageMode (key_name key_type : String) (tt : Int) (key_size : Nat)
    (value : Option RValue) (page per_page total_pages start_index : Nat) :
    KeyPageResult :=
  { name := key_name, type := some key_type,
    ttl := if tt > 0 then some tt else none,
    size := key_size, value := value, keyExists := true, error := none,
    is_paginated := true,
    cursor := none, next_cursor := none,
    has_more := decide (page < total_pages),
    showing_count := some (match value with
      | some v => if v.isTruthy then v.len else 0
      | none => 0),
    page := some page, per_page := some per_page,
    total_pages := some total_pages,
    start_index := some start_index,
    end_index := some (match value with
      | some v => if v.isTruthy then
          min (start_index + v.len - 1) (key_size - 1)
        else start_index
      | none => start_index),
    range_start := none, range_end := none, pagination_type := none }

/-- The collection-size dispatch of `get_paginated_key_data`
(lines 576-583): `LLEN` / `SCARD` / `ZCARD` / `HLEN` by type
(`key_size` stays `0` for unknown types). -/
def collectionSize (conn : RedisConn) (key ty : String) : Except String Nat :=
  if ty = "list" then conn.llen key
  else if ty = "set" then conn.scard key
  else if ty = "zset" then conn.zcard key
  else if ty = "hash" then conn.hlen key
  else .ok 0

/-- The `while True` SSCAN drain of the set page-mode branch
(lines 694-701): accumulate members until the server returns cursor `0`.
The source loop is unbounded; `fuel` is a modelling device, and running out
of fuel is modelled as an error (the Python would simply not have returned
yet).  No theorem in this file depends on the out-of-fuel branch. -/
def sscanDrainAll (conn : RedisConn) (key : String) :
    Nat → Nat → List String → Except String (List String)
  | 0, _, _ => .error "sscan drain out of fuel"
  | fuel + 1, cursor, acc =>
    match conn.sscan key cursor 1000 with
    | .error e => .error e
    | .ok (cursor2, members) =>
      let acc := acc ++ members
      if cursor2 = 0 then .ok acc
      else sscanDrainAll conn key fuel cursor2 acc

/-- `sorted(all_fields.items())`: Python sorts (field, value) tuples
lexicographically — by field, then by value. -/
def fieldPairLe (a b : String × String) : Bool :=
  if strLt a.1 b.1 = true then true
  else if strLt b.1 a.1 = true then false
  else strLe a.2 b.2

/-- The cursor-mode paginated-collection dispatch (lines 613-680), after
type, ttl and size are known and `key_size > pagination_threshold`. -/
def keyPageCursorBranch (conn : RedisConn) (key_name key_type : String)
    (tt : Int) (key_size cursor per_page : Nat) :
    Except String KeyPageResult :=
  if key_type = "list" then
    match conn.lrange key_name (cursor : Int) ((cursor + per_page - 1 : Nat) : Int) with
    | .error e => .error e
    | .ok v =>
      let showing_count := v.length
      let next_cursor := cursor + showing_count
      .ok (keyPageCursorMode key_name key_type tt key_size (some (.list v))
        cursor next_cursor (decide (next_cursor < key_size)) showing_count)
  else if key_type = "set" then
    match conn.sscan key_name cursor per_page with
    | .error e => .error e
    | .ok (scan_cursor, members) =>
      .ok (keyPageCursorMode key_name key_type tt key_size
        (some (.list members)) cursor scan_cursor
        (decide (scan_cursor ≠ 0)) members.length)
  else if key_type = "zset" then
    match conn.zrangeWithScores key_name (cursor : Int) ((cursor + per_page - 1 : Nat) : Int) with
    | .error e => .error e
    | .ok v =>
      let showing_count := v.length
      let next_cursor := cursor + showing_count
      .ok (keyPageCursorMode key_name key_type tt key_size (some (.zset v))
        cursor next_cursor (decide (next_cursor < key_size)) showing_count)
  else if key_type = "hash" then
    match conn.hscan key_name cursor per_page with
    | .error e => .error e
    | .ok (scan_cursor, fields) =>
      .ok (keyPageCursorMode key_name key_type tt key_size
        (some (.hash fields)) cursor scan_cursor
        (decide (scan_cursor ≠ 0)) fields.length)
  else
    .ok (keyPageCursorMode key_name key_type tt key_size none cursor 0
      false 0)

/-- The page-mode paginated-collection dispatch (lines 682-735), after type,
ttl and size are known and `key_size > pagination_threshold` (hence
`key_size > 0`, so the `total_pages` division always happens; division by a
zero `per_page` models Python's `ZeroDivisionError`). -/
def keyPagePageBranch (conn : RedisConn) (key_name key_type : String)
    (tt : Int) (key_size page per_page sscanFuel : Nat) :
    Except String KeyPageResult :=
  if per_page = 0 then .error "integer division or modulo by zero"
  else
    let total_pages := (key_size + per_page - 1) / per_page
    let start_index := (page - 1) * per_page
    let end_index := start_index + per_page - 1
    if key_type = "list" then
      match conn.lrange key_name (start_index : Int) (end_index : Int) with
      | .error e => .error e
      | .ok v =>
        .ok (keyPagePageMode key_name key_type tt key_size (some (.list v))
          page per_page total_pages start_index)
    else if key_type = "set" then
      match sscanDrainAll conn key_name sscanFuel 0 [] with
      | .error e => .error e
      | .ok all_members =>
        let all_members := sortKeys all_members
        let v := (all_members.drop start_index).take per_page
        .ok (keyPagePageMode key_name key_type tt key_size (some (.list v))
          page per_page total_pages start_index)
    else if key_type = "zset" then
      match conn.zrangeWithScores key_name (start_index : Int) (end_index : Int) with
      | .error e => .error e
      | .ok v =>
        .ok (keyPagePageMode key_name key_type tt key_size (some (.zset v))
          page per_page total_pages start_index)
    else if key_type = "hash" then
      match conn.hgetall key_name with
      | .error e => .error e
      | .ok all_fields =>
        let sorted_fields := all_fields.insertionSort
          (fun a b => fieldPairLe a b = true)
        let v := (sorted_fields.drop start_index).take per_page
        .ok (keyPagePageMode key_name key_type tt key_size (some (.hash v))
          page per_page total_pages start_index)
    else
      .ok (keyPagePageMode key_name key_type tt key_size none
        page per_page total_pages start_index)

/-- The body of `get_paginated_key_data`'s `try` block (lines 497-735),
with the pagination mode and normalized `cursor`/`page` already determined. -/
def keyPageCore (connect : Except String RedisConn) (key_name : String)
    (use_cursor : Bool) (cursor page per_page pagination_threshold
    sscanFuel : Nat) : Except String KeyPageResult :=
  match connect with
  | .error e => .error e
  | .ok conn =>
    match conn.existsKey key_name with
    | .error e => .error e
    | .ok ex =>
      if ex then
        match conn.typeOf key_name with
        | .error e => .error e
        | .ok key_type =>
          match conn.ttl key_name with
          | .error e => .error e
          | .ok tt =>
            if key_type = "string" then
              match conn.getCmd key_name with
              | .error e => .error e
              | .ok v =>
                .ok (keyPageString key_name (v.getD "") tt use_cursor
                  cursor page per_page)
            else
              match collectionSize conn key_name key_type with
              | .error e => .error e
              | .ok key_size =>
                if key_size ≤ pagination_threshold then
                  .ok (keyPageUnpaginated (get_key_data connect key_name)
                    use_cursor cursor page per_page key_size)
                else if use_cursor then
                  keyPageCursorBranch conn key_name key_type tt key_size
                    cursor per_page
                else
                  keyPagePageBranch conn key_name key_type tt key_size
                    page per_page sscanFuel
      else
        .ok (keyPageBase key_name use_cursor cursor page per_page none)

/-- `RedisPanelUtils.get_paginated_key_data(instance_alias, db_number,
key_name, page, cursor, per_page, pagination_threshold)` (lines 477-766).
Cursor-based pagination is used exactly when a `cursor` argument is passed
(`cursor is not None`); otherwise page-based with `page = max(1, page or 1)`.
`sscanFuel` bounds the (unbounded) SSCAN drain loop of the set page-mode
branch, see `sscanDrainAll`. -/
def get_paginated_key_data (connect : Except String RedisConn)
    (key_name : String) (pageArg cursorArg : Option Nat)
    (per_page pagination_threshold sscanFuel : Nat) : KeyPageResult :=
  let use_cursor := cursorArg.isSome
  let cursor := max 0 (cursorArg.getD 0)
  let page := max 1 (pageArg.getD 1)
  match keyPageCore connect key_name use_cursor cursor page per_page
    pagination_threshold sscanFuel with
  | .ok r => r
  | .error e => keyPageBase key_name use_cursor cursor page per_page (some e)

/-- Redis `LRANGE`/`ZRANGE` semantics for non-negative `start`/`stop`
arguments over an underlying sequence: the elements at indices
`start .. stop` inclusive, clamped to the sequence (modelled from the Redis
command documentation; used to specify model servers in theorem
hypotheses, not part of the repository embedding). -/
def redisRange (l : List α) (start stop : Nat) : List α :=
  (l.take (stop + 1)).drop start

/-- Sorting does not change the number of accumulated keys. -/
theorem sortKeys_length (l : List String) : (sortKeys l).length = l.length :=
  (List.perm_insertionSort _ l).length_eq

/-- The `(n + d - 1) // d` idiom used by the source is ceiling division. -/
theorem add_pred_div_eq_ceilDiv (a b : Nat) : (a + b - 1) / b = a ⌈/⌉ b :=
  (Nat.ceilDiv_eq_add_pred_div a b).symm

/-- Width of the page slice `[(page-1)*per_page, page*per_page)`. -/
theorem page_slice_width (page pp : Nat) (hp : 1 ≤ page) :
    page * pp - (page - 1) * pp = pp := by
  obtain ⟨q, rfl⟩ : ∃ q, page = q + 1 := ⟨page - 1, by omega⟩
  rw [Nat.succ_mul, Nat.add_sub_cancel]
  omega

/-- A model connection with every command failing; concrete model servers
below override the commands they serve. -/
def stubConn : RedisConn :=
  { scan := fun _ _ _ => .error "stub", typeOf := fun _ => .error "stub",
    ttl := fun _ => .error "stub", getCmd := fun _ => .error "stub",
    existsKey := fun _ => .error "stub", llen := fun _ => .error "stub",
    scard := fun _ => .error "stub", zcard := fun _ => .error "stub",
    hlen := fun _ => .error "stub", lrange := fun _ _ _ => .error "stub",
    smembers := fun _ => .error "stub",
    zrangeWithScores := fun _ _ _ => .error "stub",
    hgetall := fun _ => .error "stub", sscan := fun _ _ _ => .error "stub",
    hscan := fun _ _ _ => .error "stub" }

/-- A model keyspace holding exactly the two string keys `user:123` and
`user:456`, delivered by SCAN in one batch in non-sorted order. -/
def twoKeyConn : RedisConn :=
  { stubConn with
    scan := fun _ _ _ => .ok (0, ["user:456", "user:123"]),
    typeOf := fun _ => .ok "string",
    ttl := fun _ => .ok (-1),
    getCmd := fun _ => .ok (some "v"),
    existsKey := fun _ => .ok true }

/-- C1: for every successful call to `paginated_scan`, `keys` is the slice
`[(page-1)*per_page, page*per_page)` of the lexicographically sorted
accumulated key list, and `total_pages = ceil(total_keys / per_page)` when
`total_keys > 0`, else `1`.  (Stated in the validated regime
`page ≥ 1, per_page ≥ 1` that the web layer guarantees; the scan
accumulation is named by the hypothesis on `scanLoop`.) -/
theorem C1_offset_scan_slice_and_pages
    (conn : RedisConn) (pattern : String) (page per_page scan_count c : Nat)
    (ks : List String)
    (hp : 1 ≤ page) (hpp : 1 ≤ per_page)
    (hloop : scanLoop conn pattern scan_count 2000 0 [] = .ok (c, ks)) :
    (paginated_scan (.ok conn) pattern page per_page scan_count).keys =
      ((sortKeys ks).drop ((page - 1) * per_page)).take
        (page * per_page - (page - 1) * per_page)
    ∧ (0 < (paginated_scan (.ok conn) pattern page per_page scan_count).total_keys →
        (paginated_scan (.ok conn) pattern page per_page scan_count).total_pages =
          (paginated_scan (.ok conn) pattern page per_page scan_count).total_keys
            ⌈/⌉ per_page)
    ∧ ((paginated_scan (.ok conn) pattern page per_page scan_count).total_keys = 0 →
        (paginated_scan (.ok conn) pattern page per_page scan_count).total_pages = 1) := by
  have hpp0 : ¬ per_page = 0 := by omega
  rw [page_slice_width page per_page hp]
  simp only [paginated_scan, hloop]
  split
  · rename_i hlen
    simp only [hpp0, if_false, buildScanSuccess]
    refine ⟨by rw [Nat.add_sub_cancel_left], fun _ => ?_, fun h0 => ?_⟩
    · exact add_pred_div_eq_ceilDiv _ _
    · exact absurd h0 (by omega)
  · rename_i hlen
    simp only [buildScanSuccess]
    refine ⟨by rw [Nat.add_sub_cancel_left], fun h0 => ?_, fun _ => trivial⟩
    exact absurd h0 hlen

/-- Witness for C1: the spec's concrete scenario — a keyspace with exactly
the keys `user:123`, `user:456`, `page=1`, `per_page=10`: both keys are
returned in sorted order and `total_pages = 1`. -/
theorem C1_offset_scan_slice_and_pages_witness :
    (paginated_scan (.ok twoKeyConn) "user:*" 1 10 100).keys =
      ["user:123", "user:456"]
    ∧ (paginated_scan (.ok twoKeyConn) "user:*" 1 10 100).total_pages = 1 := by
  have h := C1_offset_scan_slice_and_pages twoKeyConn "user:*" 1 10 100 0
    ["user:456", "user:123"] (by decide) (by decide) (by rfl)
  refine ⟨?_, ?_⟩
  · rw [h.1]; decide
  · rw [h.2.1 (by decide)]; decide

/-- A model server whose SCAN never completes: every iteration returns
cursor `1` and an empty batch. -/
def neverEndingConn : RedisConn :=
  { stubConn with scan := fun _ _ _ => .ok (1, []) }

/-- The SCAN command of `neverEndingConn`, as an equation. -/
theorem neverEndingConn_scan (c : Nat) (p : String) (n : Nat) :
    neverEndingConn.scan c p n = .ok (1, []) := rfl

/-- Behavior of the accumulation loop against `neverEndingConn`: the loop
spins until the iteration budget is exhausted, accumulating nothing. -/
theorem neverEndingConn_scanLoop (pattern : String) (sc fuel c : Nat) :
    scanLoop neverEndingConn pattern sc fuel c [] =
      .ok (if fuel = 0 then c else 1, []) := by
  induction fuel generalizing c with
  | zero => simp [scanLoop]
  | succ n ih =>
    simp [scanLoop, neverEndingConn_scan, ih 1]

/-- C2 counterexample: a scan stopped by the iteration cap alone (the
server's cursor never reaches `0`, and fewer than 100000 keys were
accumulated) returns `limited_scan = false` — the flag reflects only the
accumulated-key safety cap (line 269: `len(all_keys) >= 100000`), not the
iteration cap, contradicting the claim that any cap-truncated scan has
`limited_scan = true`. -/
theorem C2_counterexample_iteration_cap_not_flagged :
    (paginated_scan (.ok neverEndingConn) "*" 1 25 100).error = none
    ∧ (paginated_scan (.ok neverEndingConn) "*" 1 25 100).scan_complete = false
    ∧ (paginated_scan (.ok neverEndingConn) "*" 1 25 100).total_keys = 0
    ∧ (paginated_scan (.ok neverEndingConn) "*" 1 25 100).limited_scan = false := by
  have h : scanLoop neverEndingConn "*" 100 2000 0 [] = .ok (1, []) := by
    simpa using neverEndingConn_scanLoop "*" 100 2000 0
  simp [paginated_scan, h, buildScanSuccess, sortKeys, keysWithDetails]

/-- C2 (amended): `limited_scan` is true exactly when the accumulated key
count reached the 100000-key safety cap; a scan truncated only by the
iteration cap has `limited_scan = false` (incompleteness is then visible
only through `scan_complete = false`). -/
theorem C2_limited_scan_iff_key_cap
    (conn : RedisConn) (pattern : String) (page per_page scan_count c : Nat)
    (ks : List String)
    (hloop : scanLoop conn pattern scan_count 2000 0 [] = .ok (c, ks))
    (hok : (paginated_scan (.ok conn) pattern page per_page scan_count).error
      = none) :
    (paginated_scan (.ok conn) pattern page per_page scan_count).limited_scan
      = decide (100000 ≤ ks.length)
    ∧ (paginated_scan (.ok conn) pattern page per_page scan_count).scan_complete
      = decide (c = 0) := by
  simp only [paginated_scan, hloop] at hok ⊢
  by_cases hlen : 0 < (sortKeys ks).length
  · by_cases hpp : per_page = 0
    · rw [if_pos hlen, if_pos hpp] at hok
      exact absurd hok (by simp [scanErrorResult])
    · rw [if_pos hlen, if_neg hpp]
      exact ⟨by rw [buildScanSuccess]; simp only [sortKeys_length], rfl⟩
  · rw [if_neg hlen]
    exact ⟨by rw [buildScanSuccess]; simp only [sortKeys_length], rfl⟩

/-- Witness for C2 (amended): two accumulated keys are far below the cap,
so `limited_scan = false` and the completed scan has `scan_complete = true`. -/
theorem C2_limited_scan_iff_key_cap_witness :
    (paginated_scan (.ok twoKeyConn) "user:*" 1 25 100).limited_scan = false
    ∧ (paginated_scan (.ok twoKeyConn) "user:*" 1 25 100).scan_complete
      = true := by
  have h := C2_limited_scan_iff_key_cap twoKeyConn "user:*" 1 25 100 0
    ["user:456", "user:123"] (by rfl) (by decide)
  refine ⟨?_, ?_⟩
  · rw [h.1]; decide
  · rw [h.2]; decide

/-- A model server returning a non-zero cursor together with an empty
batch for every SCAN call. -/
def emptyBatchConn : RedisConn :=
  { stubConn with scan := fun _ _ _ => .ok (5, []) }

/-- C3: for every successful `cursor_paginated_scan`, `has_more` holds iff
the server's returned cursor is nonzero AND the page's key batch is
non-empty (lines 367-372). -/
theorem C3_cursor_scan_has_more
    (conn : RedisConn) (pattern : String) (per_page cursor cur2 : Nat)
    (batch : List String)
    (hscan : conn.scan cursor pattern per_page = .ok (cur2, batch)) :
    ((cursor_paginated_scan (.ok conn) pattern per_page cursor).has_more = true
      ↔ ((cursor_paginated_scan (.ok conn) pattern per_page cursor).next_cursor
          ≠ 0
        ∧ (cursor_paginated_scan (.ok conn) pattern per_page cursor).keys
          ≠ [])) := by
  simp only [cursor_paginated_scan, hscan]
  constructor
  · intro h
    simp only [Bool.and_eq_true, Bool.not_eq_true', decide_eq_false_iff_not,
      decide_eq_true_eq] at h
    exact ⟨h.1, by
      have := h.2
      intro hnil
      rw [hnil] at this
      simp at this⟩
  · intro ⟨h1, h2⟩
    simp only [Bool.and_eq_true, Bool.not_eq_true', decide_eq_false_iff_not,
      decide_eq_true_eq]
    exact ⟨h1, List.length_pos.mpr h2⟩

/-- Witness for C3: a page with zero keys but a nonzero next cursor has
`has_more = false`. -/
theorem C3_cursor_scan_has_more_witness :
    (cursor_paginated_scan (.ok emptyBatchConn) "*" 25 0).has_more = false
    ∧ (cursor_paginated_scan (.ok emptyBatchConn) "*" 25 0).next_cursor = 5 := by
  have h := C3_cursor_scan_has_more emptyBatchConn "*" 25 0 5 [] (by rfl)
  refine ⟨?_, by decide⟩
  by_contra hb
  have : (cursor_paginated_scan (.ok emptyBatchConn) "*" 25 0).has_more
      = true := by
    revert hb
    cases (cursor_paginated_scan (.ok emptyBatchConn) "*" 25 0).has_more <;> simp
  exact absurd ((h.mp this).2) (by decide)

/-- A model server where SCAN succeeds with one key `a`, but the per-key
detail commands (`TYPE` first) raise. -/
def detailFailConn : RedisConn :=
  { stubConn with
    scan := fun _ _ _ => .ok (0, ["a"]),
    typeOf := fun _ => .error "boom" }

/-- C6 counterexample: an exception raised by the Redis client inside
`paginated_scan` during the per-key detail loop does NOT produce an
empty-keys error result — the key stays in `keys`, is dropped from
`keys_with_details`, and `error` is null (lines 256-258), contradicting
the claim's universal quantification over every client exception. -/
theorem C6_counterexample_detail_exception_not_surfaced :
    keyDetail detailFailConn "a" = .error "boom"
    ∧ (paginated_scan (.ok detailFailConn) "*" 1 25 100).error = none
    ∧ (paginated_scan (.ok detailFailConn) "*" 1 25 100).keys = ["a"]
    ∧ (paginated_scan (.ok detailFailConn) "*" 1 25 100).keys_with_details
      = [] := by
  refine ⟨rfl, ?_, ?_, ?_⟩ <;> decide

/-- C6 (amended): every result of the two scanners is either a success
result (`error = none`) or exactly the all-empty error dictionary carrying
the exception's message; exceptions raised outside the per-key detail loop
(connection/select, SCAN, the total-pages division) are converted to that
error dictionary, and in particular a connection failure's message is
carried verbatim. -/
theorem C6_error_isolation
    (connect : Except String RedisConn) (pattern : String)
    (page per_page scan_count cursor : Nat) :
    ((paginated_scan connect pattern page per_page scan_count).error = none
      ∨ ∃ m, paginated_scan connect pattern page per_page scan_count
          = scanErrorResult page per_page m)
    ∧ ((cursor_paginated_scan connect pattern per_page cursor).error = none
      ∨ ∃ m, cursor_paginated_scan connect pattern per_page cursor
          = cursorErrorResult per_page cursor m)
    ∧ (∀ e, connect = Except.error e →
        paginated_scan connect pattern page per_page scan_count
          = scanErrorResult page per_page e
        ∧ cursor_paginated_scan connect pattern per_page cursor
          = cursorErrorResult per_page cursor e) := by
  refine ⟨?_, ?_, ?_⟩
  · cases connect with
    | error e => exact .inr ⟨e, rfl⟩
    | ok conn =>
      rcases hl : scanLoop conn pattern scan_count 2000 0 [] with e | ⟨c, ks⟩
      · simp only [paginated_scan, hl]
        exact .inr ⟨e, rfl⟩
      · simp only [paginated_scan, hl]
        split
        · split
          · exact .inr ⟨_, rfl⟩
          · exact .inl rfl
        · exact .inl rfl
  · cases connect with
    | error e => exact .inr ⟨e, rfl⟩
    | ok conn =>
      rcases hs : conn.scan cursor pattern per_page with e | ⟨c, batch⟩
      · simp only [cursor_paginated_scan, hs]
        exact .inr ⟨e, rfl⟩
      · exact .inl (by simp only [cursor_paginated_scan, hs])
  · intro e he
    subst he
    exact ⟨rfl, rfl⟩

/-- Witness for C6 (amended): a failed connection yields exactly the
all-empty error dictionaries with the failure message. -/
theorem C6_error_isolation_witness :
    paginated_scan (.error "connection refused") "*" 1 25 100
      = scanErrorResult 1 25 "connection refused"
    ∧ cursor_paginated_scan (.error "connection refused") "*" 25 0
      = cursorErrorResult 25 0 "connection refused" :=
  (C6_error_isolation (.error "connection refused") "*" 1 25 100 0).2.2
    "connection refused" rfl

/-- C8 counterexample: the result dictionary of `cursor_paginated_scan`
contains `page` (an offset-shape field that is not part of the cursor
shape) and `next_cursor` (a cursor-shape field that is not part of the
offset shape) at the same time — a mix of the two shapes. -/
theorem C8_counterexample_cursor_result_mixes_shapes :
    ("page" ∈ cursorScanDictKeys ∧ "page" ∈ offsetModeShapeFields
      ∧ "page" ∉ cursorModeShapeFields)
    ∧ ("next_cursor" ∈ cursorScanDictKeys
      ∧ "next_cursor" ∈ cursorModeShapeFields
      ∧ "next_cursor" ∉ offsetModeShapeFields) := by
  decide

/-- C8 (amended): offset-mode results carry the full offset shape and no
cursor-exclusive field, while cursor-mode results carry the full cursor
shape but additionally all offset-shape fields as template-compatibility
placeholders (`page` is always the constant `1`). -/
theorem C8_result_shapes :
    offsetModeShapeFields.all
      (fun f => decide (f ∈ paginatedScanDictKeys)) = true
    ∧ decide ("current_cursor" ∉ paginatedScanDictKeys) = true
    ∧ decide ("next_cursor" ∉ paginatedScanDictKeys) = true
    ∧ cursorModeShapeFields.all
      (fun f => decide (f ∈ cursorScanDictKeys)) = true
    ∧ offsetModeShapeFields.all
      (fun f => decide (f ∈ cursorScanDictKeys)) = true
    ∧ ∀ (connect : Except String RedisConn) (pattern : String)
        (per_page cursor : Nat),
        (cursor_paginated_scan connect pattern per_page cursor).page = 1 := by
  refine ⟨by decide, by decide, by decide, by decide, by decide, ?_⟩
  intro connect pattern per_page cursor
  cases connect with
  | error e => rfl
  | ok conn =>
    rcases hs : conn.scan cursor pattern per_page with e | ⟨c, batch⟩
    · simp [cursor_paginated_scan, hs, cursorErrorResult]
    · simp [cursor_paginated_scan, hs]

/-- A model server whose SCAN walks cursors `0 → 1 → ⋯ → N` with empty
batches and completes (cursor `0`, one key `done`) on the call made with
cursor `N`: completing the scan takes exactly `N + 1` iterations. -/
def countingConn (N : Nat) : RedisConn :=
  { stubConn with scan := fun c _ _ =>
      if c = N then .ok (0, ["done"]) else .ok (c + 1, []) }

/-- The SCAN command of `countingConn`, as an equation. -/
theorem countingConn_scan (N c : Nat) (p : String) (n : Nat) :
    (countingConn N).scan c p n
      = if c = N then .ok (0, ["done"]) else .ok (c + 1, []) := rfl

/-- With fewer iterations than needed, the loop runs out of budget and
stops at a nonzero cursor with nothing accumulated. -/
theorem countingConn_scanLoop_incomplete (N : Nat) (p : String)
    (sc : Nat) (fuel : Nat) :
    ∀ start, start + fuel ≤ N →
      scanLoop (countingConn N) p sc fuel start [] = .ok (start + fuel, []) := by
  induction fuel with
  | zero => intro start h; simp [scanLoop]
  | succ n ih =>
    intro start h
    have hne : ¬ start = N := by omega
    have h2 : ¬ (start + 1 = 0) := by omega
    simp only [scanLoop, countingConn_scan, if_neg hne, List.nil_append]
    rw [if_neg h2, if_neg (by simp)]
    rw [ih (start + 1) (by omega)]
    have e : start + 1 + n = start + (n + 1) := by omega
    rw [e]

/-- With enough iterations, the loop reaches cursor `N` and completes. -/
theorem countingConn_scanLoop_complete (N : Nat) (p : String)
    (sc : Nat) (fuel : Nat) :
    ∀ start, N < start + fuel → start ≤ N →
      scanLoop (countingConn N) p sc fuel start [] = .ok (0, ["done"]) := by
  induction fuel with
  | zero => intro start h1 h2; exact absurd h1 (by omega)
  | succ n ih =>
    intro start h1 h2
    by_cases he : start = N
    · subst he
      simp [scanLoop, countingConn_scan]
    · have h3 : ¬ start + 1 = 0 := by omega
      simp only [scanLoop, countingConn_scan, if_neg he, List.nil_append]
      rw [if_neg h3, if_neg (by simp)]
      exact ih (start + 1) (by omega) (by omega)

/-- C9: the offset scanner's caps are NOT resolved from configuration —
`paginated_scan` takes no configuration input at all (see its signature) and
its iteration cap is the hardcoded constant `2000` (line 201): a keyspace
whose scan completes on the 2000th iteration is fully scanned
(`scan_complete = true`, the key is found), while one needing a 2001st
iteration is cut off (`scan_complete = false`, nothing found), regardless
of any configured `MAX_SCAN_ITERATIONS`. -/
theorem C9_iteration_cap_hardcoded_2000 :
    ((paginated_scan (.ok (countingConn 1999)) "*" 1 25 100).scan_complete
        = true
      ∧ (paginated_scan (.ok (countingConn 1999)) "*" 1 25 100).total_keys = 1)
    ∧ ((paginated_scan (.ok (countingConn 2000)) "*" 1 25 100).scan_complete
        = false
      ∧ (paginated_scan (.ok (countingConn 2000)) "*" 1 25 100).total_keys
        = 0) := by
  have h1 : scanLoop (countingConn 1999) "*" 100 2000 0 [] = .ok (0, ["done"]) :=
    countingConn_scanLoop_complete 1999 "*" 100 2000 0 (by omega) (by omega)
  have h2 : scanLoop (countingConn 2000) "*" 100 2000 0 [] = .ok (2000, []) := by
    simpa using countingConn_scanLoop_incomplete 2000 "*" 100 2000 0 (by omega)
  constructor
  · simp only [paginated_scan, h1]
    decide
  · simp only [paginated_scan, h2]
    decide

/-- Reduction of `keyPageCore` for an existing non-string collection key
with known type, TTL and size. -/
theorem keyPageCore_collection
    (conn : RedisConn) (key ty : String) (tt : Int) (s : Nat)
    (use_cursor : Bool) (cursor page pp t fuel : Nat)
    (hstr : ¬ ty = "string")
    (hex : conn.existsKey key = .ok true)
    (ht : conn.typeOf key = .ok ty)
    (httl : conn.ttl key = .ok tt)
    (hs : collectionSize conn key ty = .ok s) :
    keyPageCore (.ok conn) key use_cursor cursor page pp t fuel =
      if s ≤ t then
        .ok (keyPageUnpaginated (get_key_data (.ok conn) key)
          use_cursor cursor page pp s)
      else if use_cursor then
        keyPageCursorBranch conn key ty tt s cursor pp
      else
        keyPagePageBranch conn key ty tt s page pp fuel := by
  simp only [keyPageCore, hex, ht, httl, hs, if_neg hstr, if_true]

/-- Every successfully produced cursor-mode collection page is marked
paginated. -/
theorem keyPageCursorBranch_is_paginated
    (conn : RedisConn) (key ty : String) (tt : Int) (s cursor pp : Nat)
    (r : KeyPageResult)
    (h : keyPageCursorBranch conn key ty tt s cursor pp = .ok r) :
    r.is_paginated = true := by
  unfold keyPageCursorBranch at h
  repeat' split at h
  all_goals first
    | (injection h with h; subst h; rfl)
    | simp at h

/-- Every successfully produced page-mode collection page is marked
paginated. -/
theorem keyPagePageBranch_is_paginated
    (conn : RedisConn) (key ty : String) (tt : Int) (s page pp fuel : Nat)
    (r : KeyPageResult)
    (h : keyPagePageBranch conn key ty tt s page pp fuel = .ok r) :
    r.is_paginated = true := by
  unfold keyPagePageBranch at h
  simp only [] at h
  repeat' split at h
  all_goals
    first
      | (injection h with h; subst h; rfl)
      | simp at h

/-- C5: for an existing collection key whose size command reports `s`,
`get_paginated_key_data` paginates exactly when `s` strictly exceeds the
pagination threshold: `size == threshold` is returned unpaginated,
`size == threshold + 1` paginated (line 586: `key_size >
pagination_threshold`). -/
theorem C5_threshold_boundary
    (conn : RedisConn) (key ty : String) (s t pp fuel : Nat) (tt : Int)
    (pageArg cursorArg : Option Nat)
    (hty : ty = "list" ∨ ty = "set" ∨ ty = "zset" ∨ ty = "hash")
    (hex : conn.existsKey key = .ok true)
    (ht : conn.typeOf key = .ok ty)
    (httl : conn.ttl key = .ok tt)
    (hs : collectionSize conn key ty = .ok s)
    (hok : (get_paginated_key_data (.ok conn) key pageArg cursorArg
      pp t fuel).error = none) :
    (get_paginated_key_data (.ok conn) key pageArg cursorArg
      pp t fuel).is_paginated = decide (t < s) := by
  have hstr : ¬ ty = "string" := by
    rcases hty with h | h | h | h <;> subst h <;> decide
  have hcore := keyPageCore_collection conn key ty tt s cursorArg.isSome
    (max 0 (cursorArg.getD 0)) (max 1 (pageArg.getD 1)) pp t fuel
    hstr hex ht httl hs
  simp only [get_paginated_key_data, hcore] at hok ⊢
  by_cases hle : s ≤ t
  · have hnlt : ¬ t < s := by omega
    simp only [if_pos hle] at hok ⊢
    simp [keyPageUnpaginated, hnlt]
  · have hlt : t < s := by omega
    simp only [if_neg hle] at hok ⊢
    by_cases hc : cursorArg.isSome
    · simp only [if_pos hc] at hok ⊢
      rcases hbr : keyPageCursorBranch conn key ty tt s
          (max 0 (cursorArg.getD 0)) pp with e | r
      · rw [hbr] at hok
        simp [keyPageBase] at hok
      · simp only [keyPageCursorBranch_is_paginated _ _ _ _ _ _ _ _ hbr,
          decide_eq_true hlt]
    · simp only [if_neg hc] at hok ⊢
      rcases hbr : keyPagePageBranch conn key ty tt s
          (max 1 (pageArg.getD 1)) pp fuel with e | r
      · rw [hbr] at hok
        simp [keyPageBase] at hok
      · simp only [keyPagePageBranch_is_paginated _ _ _ _ _ _ _ _ _ hbr,
          decide_eq_true hlt]

/-- 100 distinct member names. -/
def members100 : List String := (List.range 100).map (fun i => "m" ++ toString i)

/-- A model set key with exactly 100 members. -/
def setConn100 : RedisConn :=
  { stubConn with
    existsKey := fun _ => .ok true,
    typeOf := fun _ => .ok "set",
    ttl := fun _ => .ok (-1),
    scard := fun _ => .ok 100,
    smembers := fun _ => .ok members100 }

/-- A model set key with 101 members (one above the threshold), whose SSCAN
returns an exhausted cursor. -/
def setConn101 : RedisConn :=
  { stubConn with
    existsKey := fun _ => .ok true,
    typeOf := fun _ => .ok "set",
    ttl := fun _ => .ok (-1),
    scard := fun _ => .ok 101,
    sscan := fun _ _ _ => .ok (0, []) }

/-- Witness for C5: the spec's concrete scenario — a set with exactly 100
members and threshold 100 is returned unpaginated; with 101 members the
same request is paginated. -/
theorem C5_threshold_boundary_witness :
    (get_paginated_key_data (.ok setConn100) "k" (some 1) none 50 100 5).is_paginated
      = false
    ∧ (get_paginated_key_data (.ok setConn101) "k" none (some 0) 50 100 5).is_paginated
      = true := by
  have h1 := C5_threshold_boundary setConn100 "k" "set" 100 100 50 5 (-1)
    (some 1) none (.inr (.inl rfl)) rfl rfl rfl rfl (by decide)
  have h2 := C5_threshold_boundary setConn101 "k" "set" 101 100 50 5 (-1)
    none (some 0) (.inr (.inl rfl)) rfl rfl rfl rfl (by decide)
  exact ⟨by rw [h1]; decide, by rw [h2]; decide⟩

/-- C10: in cursor-mode collection pagination of an oversized set or hash,
`has_more` equals `scan_cursor != 0` (lines 634 and 651) — the returned
batch's emptiness plays no role, unlike the keyspace cursor scanner's
empty-batch suppression. -/
theorem C10_collection_cursor_has_more
    (conn : RedisConn) (key : String) (s t pp c fuel : Nat) (tt : Int)
    (hex : conn.existsKey key = .ok true)
    (httl : conn.ttl key = .ok tt) :
    (∀ sc members, conn.typeOf key = .ok "set" →
      conn.scard key = .ok s → t < s →
      conn.sscan key c pp = .ok (sc, members) →
      (get_paginated_key_data (.ok conn) key none (some c) pp t fuel).has_more
        = decide (sc ≠ 0))
    ∧ (∀ sc fields, conn.typeOf key = .ok "hash" →
      conn.hlen key = .ok s → t < s →
      conn.hscan key c pp = .ok (sc, fields) →
      (get_paginated_key_data (.ok conn) key none (some c) pp t fuel).has_more
        = decide (sc ≠ 0)) := by
  constructor
  · intro sc members hty hsc hlt hscan
    have hcore := keyPageCore_collection conn key "set" tt s true c 1 pp t fuel
      (by decide) hex hty httl (by simp [collectionSize, hsc])
    simp only [get_paginated_key_data, Option.isSome_some, Option.getD_some,
      Option.getD_none, Nat.zero_max, Nat.max_self, hcore]
    rw [if_neg (by omega : ¬ s ≤ t), if_pos trivial]
    simp [keyPageCursorBranch, hscan, keyPageCursorMode]
  · intro sc fields hty hsc hlt hscan
    have hcore := keyPageCore_collection conn key "hash" tt s true c 1 pp t fuel
      (by decide) hex hty httl (by simp [collectionSize, hsc])
    simp only [get_paginated_key_data, Option.isSome_some, Option.getD_some,
      Option.getD_none, Nat.zero_max, Nat.max_self, hcore]
    rw [if_neg (by omega : ¬ s ≤ t), if_pos trivial]
    simp [keyPageCursorBranch, hscan, keyPageCursorMode]

/-- A model hash key with 101 fields whose HSCAN returns an empty batch
with a nonzero cursor. -/
def hashConn101 : RedisConn :=
  { stubConn with
    existsKey := fun _ => .ok true,
    typeOf := fun _ => .ok "hash",
    ttl := fun _ => .ok (-1),
    hlen := fun _ => .ok 101,
    hscan := fun _ _ _ => .ok (7, []) }

/-- Witness for C10: an empty HSCAN batch with nonzero cursor 7 still gives
`has_more = true`. -/
theorem C10_collection_cursor_has_more_witness :
    (get_paginated_key_data (.ok hashConn101) "h" none (some 0) 50 100 5).has_more
      = true := by
  have h := (C10_collection_cursor_has_more hashConn101 "h" 101 100 50 0 5 (-1)
    rfl rfl).2 7 [] rfl rfl (by omega) rfl
  rw [h]; decide

/-- The Redis inclusive index range `[(p-1)*pp, (p-1)*pp + pp - 1]` is the
page slice `[(p-1)*pp, p*pp)`. -/
theorem redisRange_page (L : List α) (p pp : Nat) (hp : 1 ≤ p)
    (hpp : 1 ≤ pp) :
    redisRange L ((p - 1) * pp) ((p - 1) * pp + pp - 1)
      = (L.drop ((p - 1) * pp)).take (p * pp - (p - 1) * pp) := by
  unfold redisRange
  rw [page_slice_width p pp hp]
  have h1 : (p - 1) * pp + pp - 1 + 1 = (p - 1) * pp + pp := by omega
  rw [h1, List.drop_take]
  congr 1
  omega

/-- C4: for an oversized list or zset in page mode, the returned `value` is
exactly the elements at indices `(page-1)*per_page .. page*per_page - 1`
(inclusive) of the collection's native order, and
`total_pages = ceil(size / per_page)` (lines 683-690, 707-709, 719-735).
Model servers are assumed to implement the documented LRANGE/ZRANGE
index-range semantics (`redisRange`). -/
theorem C4_page_mode_index_range
    (conn : RedisConn) (key : String) (p pp t fuel : Nat) (tt : Int)
    (hp : 1 ≤ p) (hpp : 1 ≤ pp)
    (hex : conn.existsKey key = .ok true)
    (httl : conn.ttl key = .ok tt) :
    (∀ L : List String, conn.typeOf key = .ok "list" →
      conn.llen key = .ok L.length →
      (∀ a b : Nat, conn.lrange key (a : Int) (b : Int)
        = .ok (redisRange L a b)) →
      t < L.length →
      (get_paginated_key_data (.ok conn) key (some p) none pp t fuel).value
        = some (.list ((L.drop ((p - 1) * pp)).take (p * pp - (p - 1) * pp)))
      ∧ (get_paginated_key_data (.ok conn) key (some p) none pp t
          fuel).total_pages = some (L.length ⌈/⌉ pp))
    ∧ (∀ Z : List (String × Int), conn.typeOf key = .ok "zset" →
      conn.zcard key = .ok Z.length →
      (∀ a b : Nat, conn.zrangeWithScores key (a : Int) (b : Int)
        = .ok (redisRange Z a b)) →
      t < Z.length →
      (get_paginated_key_data (.ok conn) key (some p) none pp t fuel).value
        = some (.zset ((Z.drop ((p - 1) * pp)).take (p * pp - (p - 1) * pp)))
      ∧ (get_paginated_key_data (.ok conn) key (some p) none pp t
          fuel).total_pages = some (Z.length ⌈/⌉ pp)) := by
  have hpp0 : ¬ pp = 0 := by omega
  have hpmax : max 1 ((some p : Option Nat).getD 1) = p := by
    simp [Nat.max_eq_right hp]
  constructor
  · intro L hty hlen hlr hlt
    have hcore := keyPageCore_collection conn key "list" tt L.length
      ((none : Option Nat).isSome) (max 0 ((none : Option Nat).getD 0))
      p pp t fuel (by decide) hex hty
      httl (by simp [collectionSize, hlen])
    simp only [get_paginated_key_data, hpmax, hcore]
    rw [if_neg (by omega : ¬ L.length ≤ t)]
    rw [if_neg (by simp : ¬ ((none : Option Nat).isSome = true))]
    simp only [keyPagePageBranch, if_neg hpp0]
    rw [if_pos trivial]
    rw [hlr ((p - 1) * pp) ((p - 1) * pp + pp - 1)]
    simp only [keyPagePageMode]
    exact ⟨by rw [redisRange_page L p pp hp hpp],
      by rw [add_pred_div_eq_ceilDiv]⟩
  · intro Z hty hlen hlr hlt
    have hcore := keyPageCore_collection conn key "zset" tt Z.length
      ((none : Option Nat).isSome) (max 0 ((none : Option Nat).getD 0))
      p pp t fuel (by decide) hex hty
      httl (by simp [collectionSize, hlen])
    simp only [get_paginated_key_data, hpmax, hcore]
    rw [if_neg (by omega : ¬ Z.length ≤ t)]
    rw [if_neg (by simp : ¬ ((none : Option Nat).isSome = true))]
    simp only [keyPagePageBranch, if_neg hpp0]
    rw [if_neg (by decide : ¬ ("zset" : String) = "list"),
      if_neg (by decide : ¬ ("zset" : String) = "set"), if_pos trivial]
    rw [hlr ((p - 1) * pp) ((p - 1) * pp + pp - 1)]
    simp only [keyPagePageMode]
    exact ⟨by rw [redisRange_page Z p pp hp hpp],
      by rw [add_pred_div_eq_ceilDiv]⟩

/-- The 150 list items of the spec's concrete scenario, in current list
order. -/
def items150 : List String := (List.range 150).map (fun i => "item" ++ toString i)

/-- A model list key holding `items150`, serving documented LRANGE
semantics. -/
def listConn150 : RedisConn :=
  { stubConn with
    existsKey := fun _ => .ok true,
    typeOf := fun _ => .ok "list",
    ttl := fun _ => .ok (-1),
    llen := fun _ => .ok items150.length,
    lrange := fun _ a b => .ok (redisRange items150 a.toNat b.toNat) }

set_option maxRecDepth 4000 in
/-- Witness for C4: a 150-item list requested with `per_page=50, page=2`
returns exactly the items at positions 50-99 of the current list order,
with `total_pages = 3`. -/
theorem C4_page_mode_index_range_witness :
    (get_paginated_key_data (.ok listConn150) "mylist" (some 2) none
      50 100 5).value = some (.list ((items150.drop 50).take 50))
    ∧ (get_paginated_key_data (.ok listConn150) "mylist" (some 2) none
      50 100 5).total_pages = some 3 := by
  have h := (C4_page_mode_index_range listConn150 "mylist" 2 50 100 5 (-1)
    (by decide) (by decide) rfl rfl).1 items150 rfl rfl
    (fun a b => by simp [listConn150, redisRange]) (by decide)
  refine ⟨?_, ?_⟩
  · rw [h.1]
  · rw [h.2]; decide

/-- Every successfully produced cursor-mode collection page carries the
normalized TTL. -/
theorem keyPageCursorBranch_ttl
    (conn : RedisConn) (key ty : String) (tt : Int) (s cursor pp : Nat)
    (r : KeyPageResult)
    (h : keyPageCursorBranch conn key ty tt s cursor pp = .ok r) :
    r.ttl = (if tt > 0 then some tt else none) := by
  unfold keyPageCursorBranch at h
  simp only [] at h
  repeat' split at h
  all_goals
    first
      | (injection h with h; subst h; rfl)
      | simp at h

/-- Every successfully produced page-mode collection page carries the
normalized TTL. -/
theorem keyPagePageBranch_ttl
    (conn : RedisConn) (key ty : String) (tt : Int) (s page pp fuel : Nat)
    (r : KeyPageResult)
    (h : keyPagePageBranch conn key ty tt s page pp fuel = .ok r) :
    r.ttl = (if tt > 0 then some tt else none) := by
  unfold keyPagePageBranch at h
  simp only [] at h
  repeat' split at h
  all_goals
    first
      | (injection h with h; subst h; rfl)
      | simp at h

/-- TTL characterization of `get_key_data`: either the not-found/error shape
(`exists = false`, TTL absent), or the record carries exactly the
normalization `ttl if ttl > 0 else None` of the store's TTL. -/
theorem get_key_data_ttl_norm (conn : RedisConn) (key : String) :
    ((get_key_data (.ok conn) key).keyExists = false
      ∧ (get_key_data (.ok conn) key).ttl = none)
    ∨ (∃ t0, conn.ttl key = .ok t0
        ∧ (get_key_data (.ok conn) key).ttl
          = (if t0 > 0 then some t0 else none)) := by
  rcases h1 : conn.existsKey key with e | ex
  · exact .inl ⟨by simp [get_key_data, h1, keyDataError],
      by simp [get_key_data, h1, keyDataError]⟩
  · cases ex
    · exact .inl ⟨by simp [get_key_data, h1], by simp [get_key_data, h1]⟩
    · rcases h2 : conn.typeOf key with e | ty
      · exact .inl ⟨by simp [get_key_data, h1, h2, keyDataError],
          by simp [get_key_data, h1, h2, keyDataError]⟩
      · rcases h3 : conn.ttl key with e | t0
        · exact .inl ⟨by simp [get_key_data, h1, h2, h3, keyDataError],
            by simp [get_key_data, h1, h2, h3, keyDataError]⟩
        · rcases h4 : fetchValueAndSize conn key ty with e | ⟨v, sz⟩
          · exact .inl ⟨by simp [get_key_data, h1, h2, h3, h4, keyDataError],
              by simp [get_key_data, h1, h2, h3, h4, keyDataError]⟩
          · exact .inr ⟨t0, rfl, by simp [get_key_data, h1, h2, h3, h4]⟩

/-- TTL characterization of `get_paginated_key_data`: either a
not-found/error shape with TTL absent, or the normalized store TTL. -/
theorem get_paginated_key_data_ttl_norm (conn : RedisConn) (key : String)
    (pageArg cursorArg : Option Nat) (pp th fuel : Nat) :
    ((get_paginated_key_data (.ok conn) key pageArg cursorArg pp th
        fuel).keyExists = false
      ∧ (get_paginated_key_data (.ok conn) key pageArg cursorArg pp th
        fuel).ttl = none)
    ∨ (∃ t0, conn.ttl key = .ok t0
        ∧ (get_paginated_key_data (.ok conn) key pageArg cursorArg pp th
          fuel).ttl = (if t0 > 0 then some t0 else none)) := by
  unfold get_paginated_key_data keyPageCore
  simp only []
  rcases h1 : conn.existsKey key with e | ex
  · exact .inl ⟨rfl, rfl⟩
  · cases ex
    · exact .inl ⟨rfl, rfl⟩
    · rcases h2 : conn.typeOf key with e | ty
      · exact .inl ⟨rfl, rfl⟩
      · rcases h3 : conn.ttl key with e | t0
        · exact .inl ⟨rfl, rfl⟩
        · by_cases hstr : ty = "string"
          · subst hstr
            rcases h4 : conn.getCmd key with e | v
            · simp only [if_pos rfl, h4]
              exact .inl ⟨rfl, rfl⟩
            · simp only [if_pos rfl, h4]
              exact .inr ⟨t0, rfl, rfl⟩
          · simp only [if_neg hstr]
            rcases h5 : collectionSize conn key ty with e | s
            · exact .inl ⟨rfl, rfl⟩
            · by_cases hth : s ≤ th
              · simp only [if_pos hth]
                rcases get_key_data_ttl_norm conn key with ⟨hf, hn⟩ | ⟨t1, ht1, hn⟩
                · exact .inl ⟨by simp [keyPageUnpaginated, hf],
                    by simp [keyPageUnpaginated, hn]⟩
                · exact .inr ⟨t1, h3.symm.trans ht1, by simp [keyPageUnpaginated, hn]⟩
              · simp only [if_neg hth]
                by_cases hc : cursorArg.isSome
                · simp only [if_pos hc]
                  rcases hbr : keyPageCursorBranch conn key ty t0 s
                      (max 0 (cursorArg.getD 0)) pp with e | r
                  · exact .inl ⟨rfl, rfl⟩
                  · exact .inr ⟨t0, rfl,
                      keyPageCursorBranch_ttl _ _ _ _ _ _ _ _ hbr⟩
                · simp only [if_neg hc]
                  rcases hbr : keyPagePageBranch conn key ty t0 s
                      (max 1 (pageArg.getD 1)) pp fuel with e | r
                  · exact .inl ⟨rfl, rfl⟩
                  · exact .inr ⟨t0, rfl,
                      keyPagePageBranch_ttl _ _ _ _ _ _ _ _ _ hbr⟩

/-- C7: everywhere a key record is assembled (`keys_with_details` rows via
`keyDetail`, `get_key_data`, `get_paginated_key_data`), a non-positive
store TTL is represented as absent (`None`) — never zero or negative — and
a strictly positive TTL is passed through unchanged (`ttl if ttl > 0 else
None`, lines 253, 358, 458, 551, 666, 722). -/
theorem C7_ttl_normalization
    (conn : RedisConn) (key : String) (t : Int)
    (pageArg cursorArg : Option Nat) (pp th fuel : Nat) :
    (∀ d, keyDetail conn key = .ok d →
      ∃ t0, conn.ttl key = .ok t0
        ∧ d.ttl = (if t0 > 0 then some t0 else none))
    ∧ ((∀ v, (get_key_data (.ok conn) key).ttl = some v → 0 < v)
      ∧ (conn.ttl key = .ok t → 0 < t →
        (get_key_data (.ok conn) key).keyExists = true →
        (get_key_data (.ok conn) key).ttl = some t))
    ∧ ((∀ v, (get_paginated_key_data (.ok conn) key pageArg cursorArg pp th
          fuel).ttl = some v → 0 < v)
      ∧ (conn.ttl key = .ok t → 0 < t →
        (get_paginated_key_data (.ok conn) key pageArg cursorArg pp th
          fuel).keyExists = true →
        (get_paginated_key_data (.ok conn) key pageArg cursorArg pp th
          fuel).ttl = some t)) := by
  refine ⟨?_, ⟨?_, ?_⟩, ⟨?_, ?_⟩⟩
  · intro d hd
    rcases h1 : conn.typeOf key with e | ty
    · simp [keyDetail, h1] at hd
    · rcases h2 : conn.ttl key with e | t0
      · simp [keyDetail, h1, h2] at hd
      · refine ⟨t0, rfl, ?_⟩
        simp only [keyDetail, h1, h2] at hd
        split at hd
        · simp at hd
        · injection hd with hd
          subst hd
          rfl
  · intro v hv
    rcases get_key_data_ttl_norm conn key with ⟨_, hn⟩ | ⟨t0, _, hn⟩
    · rw [hn] at hv; cases hv
    · rw [hn] at hv
      by_cases h0 : t0 > 0
      · rw [if_pos h0] at hv
        injection hv with hv
        omega
      · rw [if_neg h0] at hv; cases hv
  · intro htt hpos hex
    rcases get_key_data_ttl_norm conn key with ⟨hf, _⟩ | ⟨t0, ht0, hn⟩
    · rw [hex] at hf; exact absurd hf (by decide)
    · rw [htt] at ht0
      injection ht0 with h0
      subst h0
      rw [hn, if_pos hpos]
  · intro v hv
    rcases get_paginated_key_data_ttl_norm conn key pageArg cursorArg pp th
        fuel with ⟨_, hn⟩ | ⟨t0, _, hn⟩
    · rw [hn] at hv; cases hv
    · rw [hn] at hv
      by_cases h0 : t0 > 0
      · rw [if_pos h0] at hv
        injection hv with hv
        omega
      · rw [if_neg h0] at hv; cases hv
  · intro htt hpos hex
    rcases get_paginated_key_data_ttl_norm conn key pageArg cursorArg pp th
        fuel with ⟨hf, _⟩ | ⟨t0, ht0, hn⟩
    · rw [hex] at hf; exact absurd hf (by decide)
    · rw [htt] at ht0
      injection ht0 with h0
      subst h0
      rw [hn, if_pos hpos]

/-- A model string key with a strictly positive TTL of 42 seconds. -/
def posTtlConn : RedisConn :=
  { stubConn with
    existsKey := fun _ => .ok true,
    typeOf := fun _ => .ok "string",
    ttl := fun _ => .ok 42,
    getCmd := fun _ => .ok (some "v") }

/-- Witness for C7: a store TTL of 42 is passed through as `some 42` by
both record assemblers, and a store TTL of `-1` (`twoKeyConn`) comes out
absent in a `keys_with_details` row. -/
theorem C7_ttl_normalization_witness :
    (get_key_data (.ok posTtlConn) "k").ttl = some 42
    ∧ (get_paginated_key_data (.ok posTtlConn) "k" (some 1) none
        50 100 5).ttl = some 42
    ∧ (∀ d, keyDetail twoKeyConn "k" = .ok d → d.ttl = none) := by
  have h := C7_ttl_normalization posTtlConn "k" 42 (some 1) none 50 100 5
  have h2 := C7_ttl_normalization twoKeyConn "k" (-1) (some 1) none 50 100 5
  refine ⟨h.2.1.2 rfl (by decide) (by decide),
    h.2.2.2 rfl (by decide) (by decide), ?_⟩
  intro d hd
  obtain ⟨t0, ht0, hn⟩ := h2.1 d hd
  have : t0 = -1 := by
    have : Except.ok t0 = Except.ok (-1 : Int) := ht0.symm.trans rfl
    injection this with h3
  subst this
  simpa using hn
